import Mathlib

/-!
Shallow embedding of the connection-management core of the websocket-vue-front
repository and proofs about it.

The authoritative source is the Vue single-file component (src/unnamed/part_003,
a HomeView component): it owns the single WebSocket (`socket`), the status word
(`status`: 0 = closed/disconnected, 1 = connected, 2 = manually closed), the
message log (`messages`), the self-clearing heartbeat interval (`pingInterval`),
the username and the user count, and installs the four handlers
`websocketOnOpen` / `websocketOnError` / `websocketOnMessage` / `websocketClose`
on every WebSocket it creates.  The service-layer class in
src/src/services/websocket.js mirrors the same lifecycle structure
(connect / close / onClose / heartHandler) and is not separately embedded.

Platform primitives are modelled as follows:
* the browser event loop runs each handler to completion, so every handler is a
  pure function `ClientState → ClientState` and a run of the system is a fold
  of events over `step`;
* each `new WebSocket(url)` allocates a fresh transport; transports are numbered
  by creation order and their ready states are tracked in `transports`
  (replaced handles are never closed by the code, so a superseded transport can
  still fire its events — all sockets carry the same global handlers);
* `JSON.parse` is a platform primitive: an inbound frame event carries the raw
  text together with its parse result (`none` when `JSON.parse` throws);
* timers are modelled by their armed state (`pingArmed` for the heartbeat
  interval, `pendingReconnects` counting armed one-shot reconnect timeouts) and
  by explicit fire events;
* `new Date().toISOString()` is nondeterministic input carried on events;
* frames written with `ws.send` are recorded on `wire`, tagged with the id of
  the transport they were written to.
-/

namespace WsVue

/-- Json values as produced by a successful `JSON.parse` on an inbound frame. -/
inductive Json where
  | null
  | bool (b : Bool)
  | num (n : Int)
  | str (s : String)
  | arr (elems : List Json)
  | obj (fields : List (String × Json))

/-- Field lookup on a parsed object, mirroring JS semantics: only objects have
own properties after `JSON.parse` (duplicate keys: the last one wins), every
other value yields `undefined` (`none`). -/
def Json.getField : Json → String → Option Json
  | .obj fields, k => (fields.reverse.find? (fun p => p.1 = k)).map Prod.snd
  | _, _ => none

/-- Result of evaluating `data.type` in `websocketOnMessage`, collapsed to what
the `switch` can observe: accessing a property of `null` throws a TypeError
(caught by the surrounding `try`), a missing field or a non-object gives
`undefined`, and the `switch` compares with strict equality against the string
cases, so only a string-valued `type` field can match a case.  Hence the
observable outcome is `Except` of an optional string. -/
def Json.typeTag : Json → Except Unit (Option String)
  | .null => .error ()
  | j =>
    match j.getField "type" with
    | some (.str s) => .ok (some s)
    | _ => .ok none

/-- String coercion applied by `parseInt` to its argument, per JS `ToString`.
Arrays stringify as their elements joined by commas, where a `null` element
contributes the empty string (Array.prototype.join semantics). -/
def Json.jsToString : Json → String
  | .null => "null"
  | .bool b => if b then "true" else "false"
  | .num n => toString n
  | .str s => s
  | .arr xs => String.intercalate "," (xs.attach.map fun x =>
      match x with
      | ⟨.null, _⟩ => ""
      | ⟨j, _⟩ => Json.jsToString j)
  | .obj _ => "[object Object]"

def isJsWhitespace (c : Char) : Bool :=
  c = ' ' || c = '\t' || c = '\n' || c = '\r' || c = '\x0c' || c = '\x0b'

/-- JS `String.prototype.trim`: strip whitespace from both ends (over the
modelled whitespace set). -/
def jsTrim (s : String) : String :=
  String.mk
    (((s.toList.dropWhile isJsWhitespace).reverse.dropWhile isJsWhitespace).reverse)

def hexDigitVal (c : Char) : Option Nat :=
  if '0' ≤ c ∧ c ≤ '9' then some (c.toNat - '0'.toNat)
  else if 'a' ≤ c ∧ c ≤ 'f' then some (c.toNat - 'a'.toNat + 10)
  else if 'A' ≤ c ∧ c ≤ 'F' then some (c.toNat - 'A'.toNat + 10)
  else none

def digitsValue (base : Nat) (toVal : Char → Option Nat) (cs : List Char) : Nat :=
  cs.foldl (fun acc c => acc * base + ((toVal c).getD 0)) 0

/-- JS `parseInt` on a string: skip leading whitespace, read an optional sign,
then either a `0x`/`0X` hexadecimal literal or a run of decimal digits; `none`
is NaN (no digits at all). -/
def jsParseInt (s : String) : Option Int :=
  let cs := s.toList.dropWhile isJsWhitespace
  let (sign, cs) : Int × List Char :=
    match cs with
    | '-' :: rest => (-1, rest)
    | '+' :: rest => (1, rest)
    | _ => (1, cs)
  match cs with
  | '0' :: x :: rest =>
    if x = 'x' ∨ x = 'X' then
      let ds := rest.takeWhile (fun c => (hexDigitVal c).isSome)
      if ds.isEmpty then none
      else some (sign * (digitsValue 16 hexDigitVal ds : Nat))
    else
      let ds := ('0' :: x :: rest).takeWhile Char.isDigit
      some (sign * (digitsValue 10 (fun c => some (c.toNat - '0'.toNat)) ds : Nat))
  | _ =>
    let ds := cs.takeWhile Char.isDigit
    if ds.isEmpty then none
    else some (sign * (digitsValue 10 (fun c => some (c.toNat - '0'.toNat)) ds : Nat))

/-- Value stored by the `USER_COUNT` branch: `parseInt(data.message) || 0`.
A missing `message` field is `undefined`, which `parseInt` coerces to the
string "undefined"; NaN (and 0 itself) collapse to 0 through `|| 0`. -/
def parseIntOr0 (v : Option Json) : Int :=
  let coerced := match v with
    | none => "undefined"
    | some j => j.jsToString
  (jsParseInt coerced).getD 0

/-- Outbound wire frame, the JSON object passed to `JSON.stringify` before
`ws.send`: `{ type, name, message, timestamp }`. -/
structure WireMsg where
  type : String
  name : String
  message : String
  timestamp : String
  deriving Repr, DecidableEq

def pingMsg (now : String) : WireMsg :=
  { type := "PING", name := "System", message := "ping", timestamp := now }

def joinMsg (user now : String) : WireMsg :=
  { type := "JOIN", name := user, message := "", timestamp := now }

def chatMsg (user text now : String) : WireMsg :=
  { type := "CHAT", name := user, message := text, timestamp := now }

/-- The status word: 0 = closed (disconnected), 1 = connected,
2 = manually closed. -/
inductive Status where
  | disconnected
  | connected
  | manuallyClosed
  deriving Repr, DecidableEq

/-- Ready state of one WebSocket transport: `connecting` (handshake pending),
`opened`, `closing` (after `ws.close()` was called, close event still pending),
`closed` (close event delivered). -/
inductive TState where
  | connecting
  | opened
  | closing
  | closed
  deriving Repr, DecidableEq

/-- The reactive state owned by the component, plus the modelled environment
bookkeeping (transport table, armed timers, wire). -/
structure ClientState where
  /-- `socket.value`: id of the currently held transport, `none` when null. -/
  socket : Option Nat
  /-- `status.value`. -/
  status : Status
  /-- `messages.value`: the message log; entries are pushed parsed values or
  synthesized System objects. -/
  messages : List Json
  /-- whether `pingInterval.value` holds an armed interval. -/
  pingArmed : Bool
  /-- `username.value`. -/
  username : String
  /-- `userCount.value`. -/
  userCount : Int
  /-- ready state of every transport ever created, indexed by creation order. -/
  transports : List TState
  /-- number of armed one-shot reconnect timeouts. -/
  pendingReconnects : Nat
  /-- frames sent so far: (transport id, frame). -/
  wire : List (Nat × WireMsg)

/-- Initial component state with the generated guest username. -/
def initState (user : String) : ClientState :=
  { socket := none
    status := .disconnected
    messages := []
    pingArmed := false
    username := user
    userCount := 0
    transports := []
    pendingReconnects := 0
    wire := [] }

/-- The synthesized fallback pushed when `JSON.parse` (or the property access
inside the `try`) throws: `{ name: 'System', message: e.data, timestamp: now,
type: 'CHAT' }`. -/
def systemFallback (raw now : String) : Json :=
  .obj [("name", .str "System"), ("message", .str raw),
        ("timestamp", .str now), ("type", .str "CHAT")]

/-- `initWebSocket`: resolves the URL and allocates a fresh WebSocket, storing
it in `socket.value` and installing the global handlers.  No status check is
performed and the previously held transport, if any, is neither closed nor
remembered. -/
def initWebSocket (s : ClientState) : ClientState :=
  { s with transports := s.transports ++ [.connecting]
           socket := some s.transports.length }

/-- `sendJoinMessage`: early return unless `socket.value` exists and its
`readyState` is OPEN; otherwise sends one JOIN frame carrying the current
username. -/
def sendJoinMessage (now : String) (s : ClientState) : ClientState :=
  match s.socket with
  | some id =>
    if s.transports[id]? = some .opened then
      { s with wire := s.wire ++ [(id, joinMsg s.username now)] }
    else s
  | none => s

/-- `clearPingInterval`: cancel the heartbeat interval if armed. -/
def clearPingInterval (s : ClientState) : ClientState :=
  { s with pingArmed := false }

/-- Delivery of the open event of transport `id`: its ready state becomes OPEN
and the global `websocketOnOpen` runs: set status to 1, `startPingInterval`
(clearing any previous interval and arming a fresh one), then
`sendJoinMessage`. -/
def websocketOnOpen (id : Nat) (now : String) (s : ClientState) : ClientState :=
  let s := { s with transports := s.transports.set id .opened }
  let s := { s with status := .connected, pingArmed := true }
  sendJoinMessage now s

/-- One tick of the heartbeat interval callback: if `socket.value` exists and
status is 1 the PING frame is sent (a `ws.send` on a non-open transport throws,
which the event loop swallows, so nothing is recorded and the interval stays
armed); otherwise the interval clears itself. -/
def pingIntervalTick (now : String) (s : ClientState) : ClientState :=
  match s.socket with
  | some id =>
    if s.status = .connected then
      if s.transports[id]? = some .opened then
        { s with wire := s.wire ++ [(id, pingMsg now)] }
      else s
    else clearPingInterval s
  | none => clearPingInterval s

/-- Delivery of the close event of transport `id`: its ready state becomes
CLOSED and the global `websocketClose` runs: `clearPingInterval`; then, unless
status is 2, set status to 0 and arm one one-shot reconnect timeout; otherwise
status is (re)assigned 2.  The handler inspects only the global status, not
which transport closed, and it does not null `socket.value`. -/
def websocketClose (id : Nat) (s : ClientState) : ClientState :=
  let s := { s with transports := s.transports.set id .closed }
  let s := clearPingInterval s
  if s.status ≠ .manuallyClosed then
    { s with status := .disconnected
             pendingReconnects := s.pendingReconnects + 1 }
  else
    { s with status := .manuallyClosed }

/-- `closeConnection`: if `socket.value` exists, set status to 2 first, cancel
the heartbeat, call `ws.close()` on the held transport (its close event will be
delivered later) and null `socket.value`; otherwise do nothing. -/
def closeConnection (s : ClientState) : ClientState :=
  match s.socket with
  | some id =>
    { s with status := .manuallyClosed
             pingArmed := false
             transports := s.transports.set id .closing
             socket := none }
  | none => s

/-- Firing of one armed reconnect timeout: the timer is consumed, and the
callback calls `initWebSocket` only if status is still 0. -/
def reconnectTimerFire (s : ClientState) : ClientState :=
  let s := { s with pendingReconnects := s.pendingReconnects - 1 }
  if s.status = .disconnected then initWebSocket s else s

/-- `websocketOnMessage` on an inbound frame whose raw text is `raw` and whose
`JSON.parse` result is `parsed` (`none` when the parse throws): on a parse or
property-access failure the System fallback is pushed; a frame whose `type`
is the string "PONG" is discarded; "USER_COUNT" overwrites the user count
without logging; everything else is pushed to the log unchanged. -/
def websocketOnMessage (raw : String) (parsed : Option Json) (now : String)
    (s : ClientState) : ClientState :=
  match parsed with
  | none => { s with messages := s.messages ++ [systemFallback raw now] }
  | some data =>
    match data.typeTag with
    | .error _ => { s with messages := s.messages ++ [systemFallback raw now] }
    | .ok t =>
      if t = some "PONG" then s
      else if t = some "USER_COUNT" then
        { s with userCount := parseIntOr0 (data.getField "message") }
      else { s with messages := s.messages ++ [data] }

/-- `updateUsername`: if the trimmed current username is nonempty, re-announce
it with `sendJoinMessage`; otherwise do nothing further. -/
def updateUsername (now : String) (s : ClientState) : ClientState :=
  if 0 < (jsTrim s.username).length then sendJoinMessage now s else s

/-- The rename command as the UI performs it: the text input's v-model binding
writes the new name into `username.value` unconditionally, then
`updateUsername` runs. -/
def rename (newName now : String) (s : ClientState) : ClientState :=
  updateUsername now { s with username := newName }

/-- Events of the single-threaded event loop: the user commands, the transport
events (carrying the id of the transport they originate from where the
environment constrains delivery), and the timer fires. -/
inductive Ev where
  | connect
  | disconnect
  | rename (newName now : String)
  | openEvt (id : Nat) (now : String)
  | closeEvt (id : Nat)
  | msgEvt (raw : String) (parsed : Option Json) (now : String)
  | errorEvt
  | pingFire (now : String)
  | reconnectFire

def Ev.isConnect : Ev → Bool
  | .connect => true
  | _ => false

def Ev.isOpenEvt : Ev → Bool
  | .openEvt _ _ => true
  | _ => false

/-- One step of the event loop: each event runs its handler to completion.
The transport-error handler only logs, so `errorEvt` is the identity. -/
def step (s : ClientState) (e : Ev) : ClientState :=
  match e with
  | .connect => initWebSocket s
  | .disconnect => closeConnection s
  | .rename n now => rename n now s
  | .openEvt id now => websocketOnOpen id now s
  | .closeEvt id => websocketClose id s
  | .msgEvt raw parsed now => websocketOnMessage raw parsed now s
  | .errorEvt => s
  | .pingFire now => pingIntervalTick now s
  | .reconnectFire => reconnectTimerFire s

/-- Environment constraints on event delivery: an open event can only come from
a transport still in its handshake, a close event from a transport not yet
closed, timer fires require the corresponding timer to be armed.  User commands
and inbound frames are always possible. -/
def enabled (s : ClientState) : Ev → Bool
  | .openEvt id _ => s.transports[id]? = some .connecting
  | .closeEvt id =>
    match s.transports[id]? with
    | some .closed => false
    | some _ => true
    | none => false
  | .pingFire _ => s.pingArmed
  | .reconnectFire => 0 < s.pendingReconnects
  | _ => true

def run (s : ClientState) (evs : List Ev) : ClientState :=
  evs.foldl step s

/-- States reachable from a fresh component by enabled events. -/
inductive Reachable : ClientState → Prop where
  | init (user : String) : Reachable (initState user)
  | step {s : ClientState} {e : Ev} :
      Reachable s → enabled s e = true → Reachable (step s e)

/-- Transports that exist and are not closed nor in teardown: a transport is
live from its creation until `ws.close()` is called on it or its close event is
delivered. -/
def liveTransports (s : ClientState) : Nat :=
  (s.transports.filter (fun t => t = .connecting ∨ t = .opened)).length

/-- Errors the send path can produce: the two rejection reasons of
`waitForOpenConnection` ('WebSocket is not initialized' and 'Maximum number of
attempts exceeded'). -/
inductive SendErr where
  | notInitialized
  | connectionTimeout
  deriving Repr, DecidableEq

/-- The polling interval body of `waitForOpenConnection`.  `ready t` is what
tick `t` observes of `socket.value && socket.value.readyState === WebSocket.OPEN`
(the environment may change it between ticks).  With `currentAttempt` starting
at 0 and the guard `currentAttempt > connectionAttempts - 1` checked first,
readiness is observed on the ticks with `currentAttempt = 0 .. attempts - 1`
and one further tick rejects; so the remaining-attempt counter here starts at
`attempts`. -/
def waitPoll (ready : Nat → Bool) : Nat → Nat → Except SendErr Unit
  | 0, _ => .error .connectionTimeout
  | n + 1, t => if ready t then .ok () else waitPoll ready n (t + 1)

/-- `waitForOpenConnection`: immediate rejection when `socket.value` is null at
call time, otherwise the bounded polling loop. -/
def waitForOpenConnection (attempts : Nat) (ready : Nat → Bool)
    (hasSocket : Bool) : Except SendErr Unit :=
  if hasSocket then waitPoll ready attempts 0 else .error .notInitialized

/-- `sendChatMessage messageText`: returns immediately (no frame, no state
change) when `socket.value` is null; sends the CHAT frame at once when the held
transport is OPEN; otherwise awaits `waitForOpenConnection` and sends the one
pending CHAT frame on success.  A rejection is caught by the surrounding
`try`/`catch`, reported, and not retried; it is returned here as the error
outcome.  The readiness polls observe the environment through `ready`; the
transport held at resolution is the one from call time (unchanged during the
wait in this model), and the frame is stamped when it is built. -/
def sendChatMessage (attempts : Nat) (ready : Nat → Bool) (text now : String)
    (s : ClientState) : ClientState × Except SendErr Unit :=
  match s.socket with
  | none => (s, .error .notInitialized)
  | some id =>
    if s.transports[id]? = some .opened then
      ({ s with wire := s.wire ++ [(id, chatMsg s.username text now)] }, .ok ())
    else
      match waitForOpenConnection attempts ready true with
      | .ok _ =>
        ({ s with wire := s.wire ++ [(id, chatMsg s.username text now)] }, .ok ())
      | .error e => (s, .error e)

/-! Helper lemmas shared by the claim theorems. -/

/-- sendJoinMessage writes at most a frame: every field except `wire` is
preserved. -/
theorem sendJoinMessage_fields (now : String) (s : ClientState) :
    (sendJoinMessage now s).pingArmed = s.pingArmed ∧
    (sendJoinMessage now s).status = s.status ∧
    (sendJoinMessage now s).messages = s.messages ∧
    (sendJoinMessage now s).transports = s.transports ∧
    (sendJoinMessage now s).socket = s.socket ∧
    (sendJoinMessage now s).username = s.username ∧
    (sendJoinMessage now s).userCount = s.userCount ∧
    (sendJoinMessage now s).pendingReconnects = s.pendingReconnects := by
  cases h : s.socket with
  | none => simp [sendJoinMessage, h]
  | some id =>
    simp only [sendJoinMessage, h]
    split <;> simp [h]

/-- websocketOnMessage touches only the log and the user count. -/
theorem websocketOnMessage_fields (raw : String) (parsed : Option Json)
    (now : String) (s : ClientState) :
    (websocketOnMessage raw parsed now s).pingArmed = s.pingArmed ∧
    (websocketOnMessage raw parsed now s).status = s.status ∧
    (websocketOnMessage raw parsed now s).socket = s.socket ∧
    (websocketOnMessage raw parsed now s).transports = s.transports ∧
    (websocketOnMessage raw parsed now s).pendingReconnects = s.pendingReconnects ∧
    (websocketOnMessage raw parsed now s).wire = s.wire ∧
    (websocketOnMessage raw parsed now s).username = s.username := by
  cases parsed with
  | none => simp [websocketOnMessage]
  | some data =>
    cases h : data.typeTag with
    | error u => simp [websocketOnMessage, h]
    | ok t =>
      simp only [websocketOnMessage, h]
      split_ifs <;> simp

/-- If no poll within the remaining attempts observes readiness, the loop
rejects with the timeout error. -/
theorem waitPoll_timeout (ready : Nat → Bool) :
    ∀ (n t : Nat), (∀ i, i < n → ready (t + i) = false) →
      waitPoll ready n t = .error .connectionTimeout := by
  intro n
  induction n with
  | zero => intro t _; rfl
  | succ m ih =>
    intro t h
    have h0 : ready t = false := by simpa using h 0 (Nat.succ_pos m)
    rw [waitPoll, h0]
    simp only [Bool.false_eq_true, if_false]
    apply ih
    intro i hi
    have := h (i + 1) (Nat.succ_lt_succ hi)
    rwa [show t + (i + 1) = t + 1 + i by omega] at this

/-- If some poll within the remaining attempts observes readiness, the loop
resolves. -/
theorem waitPoll_ok (ready : Nat → Bool) :
    ∀ (n t i : Nat), i < n → ready (t + i) = true →
      waitPoll ready n t = .ok () := by
  intro n
  induction n with
  | zero => intro t i hi _; exact absurd hi (Nat.not_lt_zero i)
  | succ m ih =>
    intro t i hi hr
    by_cases h0 : ready t = true
    · rw [waitPoll, h0]; rfl
    · rw [waitPoll, Bool.eq_false_iff.mpr h0]
      simp only [Bool.false_eq_true, if_false]
      cases i with
      | zero => exact absurd hr (by simpa using h0)
      | succ j =>
        exact ih (t + 1) j (Nat.lt_of_succ_lt_succ hi)
          (by rwa [show t + 1 + j = t + (j + 1) by omega])

/-! Claim theorems. -/

/-- C9: for every inbound payload on which structured decode fails (the
`JSON.parse` of the handler throws), exactly one synthesized message
`{author: "System", body: raw payload, kind: CHAT, timestamp: now}` is appended
to the message log, no hard error escapes (the handler is total), and no other
state changes. -/
theorem decode_failure_appends_system_fallback (s : ClientState)
    (raw now : String) :
    step s (.msgEvt raw none now) =
      { s with messages := s.messages ++ [systemFallback raw now] } := rfl

/-- C7: calling send when no transport handle exists at all fails immediately
with NotInitialized, leaving the state — in particular the message log and the
wire — unchanged. -/
theorem send_without_transport_not_initialized
    (attempts : Nat) (ready : Nat → Bool) (text now : String) (s : ClientState)
    (h : s.socket = none) :
    sendChatMessage attempts ready text now s = (s, .error .notInitialized) := by
  simp [sendChatMessage, h]

/-- Witness for C7 at a fresh component that never created a transport. -/
theorem send_without_transport_not_initialized_witness :
    sendChatMessage 10 (fun _ => true) "hi" "t0" (initState "W7") =
      (initState "W7", .error .notInitialized) :=
  send_without_transport_not_initialized 10 (fun _ => true) "hi" "t0"
    (initState "W7") rfl

/-- C6: when a transport handle exists but is not OPEN, send polls readiness on
the fixed interval up to `attempts` tries; if some poll within the budget finds
the transport ready the single buffered CHAT message is sent, and if all polls
within the budget fail the call fails with the ConnectionTimeout error and
sends nothing (it is not retried). -/
theorem send_polls_then_sends_or_times_out
    (attempts : Nat) (ready : Nat → Bool) (text now : String)
    (s : ClientState) (id : Nat)
    (hsock : s.socket = some id)
    (hnotopen : ¬ s.transports[id]? = some .opened) :
    ((∃ i, i < attempts ∧ ready i = true) →
      sendChatMessage attempts ready text now s =
        ({ s with wire := s.wire ++ [(id, chatMsg s.username text now)] },
         .ok ())) ∧
    ((∀ i, i < attempts → ready i = false) →
      sendChatMessage attempts ready text now s =
        (s, .error .connectionTimeout)) := by
  constructor
  · rintro ⟨i, hi, hri⟩
    have hok : waitPoll ready attempts 0 = .ok () :=
      waitPoll_ok ready attempts 0 i hi (by simpa using hri)
    simp [sendChatMessage, hsock, hnotopen, waitForOpenConnection, hok]
  · intro hall
    have herr : waitPoll ready attempts 0 = .error .connectionTimeout :=
      waitPoll_timeout ready attempts 0 (by intro i hi; simpa using hall i hi)
    simp [sendChatMessage, hsock, hnotopen, waitForOpenConnection, herr]

/-- Witness for C6: a mid-handshake transport that becomes ready at the fourth
poll gets the CHAT frame; one that never becomes ready within two polls times
out. -/
theorem send_polls_then_sends_or_times_out_witness :
    (sendChatMessage 10 (fun i => 3 ≤ i) "hi" "t1"
        (initWebSocket (initState "W6")) =
      ({ initWebSocket (initState "W6") with
           wire := [(0, chatMsg "W6" "hi" "t1")] }, .ok ())) ∧
    (sendChatMessage 2 (fun _ => false) "hi" "t1"
        (initWebSocket (initState "W6")) =
      (initWebSocket (initState "W6"), .error .connectionTimeout)) := by
  constructor
  · exact (send_polls_then_sends_or_times_out 10 (fun i => 3 ≤ i) "hi" "t1"
      (initWebSocket (initState "W6")) 0 rfl (by decide)).1
      ⟨3, by decide, by decide⟩
  · exact (send_polls_then_sends_or_times_out 2 (fun _ => false) "hi" "t1"
      (initWebSocket (initState "W6")) 0 rfl (by decide)).2 (fun _ _ => rfl)

/-- Inbound frame used to refute C2: a peer PING in the structured wire
format. -/
def c2PingPayload : Json :=
  .obj [("type", .str "PING"), ("name", .str "srv"),
        ("message", .str "ping"), ("timestamp", .str "t2")]

/-- C2 counterexample: the switch of the message handler has cases only for
PONG and USER_COUNT, so an inbound frame of kind PING falls through to the
default branch and IS appended to the message log, contrary to the claim that
handling a PING appends nothing. -/
theorem ping_frame_appended_to_log :
    (initState "G2").messages = [] ∧
    c2PingPayload.typeTag = .ok (some "PING") ∧
    (step (initState "G2") (.msgEvt "ping-frame" (some c2PingPayload) "t3")).messages
      = [c2PingPayload] :=
  ⟨rfl, rfl, rfl⟩

/-- C2 amended: for every inbound payload decoding to kind PONG the handler
changes nothing at all, and for kind USER_COUNT it appends nothing to the log
and only overwrites the user count; an inbound PING, however, is appended like
any unrecognized kind. -/
theorem pong_usercount_never_logged :
    (∀ (s : ClientState) (raw : String) (j : Json) (now : String),
        j.typeTag = .ok (some "PONG") →
          step s (.msgEvt raw (some j) now) = s) ∧
    (∀ (s : ClientState) (raw : String) (j : Json) (now : String),
        j.typeTag = .ok (some "USER_COUNT") →
          (step s (.msgEvt raw (some j) now)).messages = s.messages ∧
          step s (.msgEvt raw (some j) now) =
            { s with userCount := parseIntOr0 (j.getField "message") }) := by
  constructor
  · intro s raw j now h
    simp [step, websocketOnMessage, h]
  · intro s raw j now h
    have heq : step s (.msgEvt raw (some j) now) =
        { s with userCount := parseIntOr0 (j.getField "message") } := by
      simp [step, websocketOnMessage, h]
    exact ⟨by rw [heq], heq⟩

/-- Inbound frames used in the C2 witness. -/
def c2PongPayload : Json := .obj [("type", .str "PONG")]

def c2CountPayload : Json :=
  .obj [("type", .str "USER_COUNT"), ("message", .str "5")]

/-- Witness for the amended C2 at concrete PONG and USER_COUNT frames. -/
theorem pong_usercount_never_logged_witness :
    step (initState "W2") (.msgEvt "r" (some c2PongPayload) "t") =
      initState "W2" ∧
    (step (initState "W2") (.msgEvt "r" (some c2CountPayload) "t")).messages =
      (initState "W2").messages ∧
    step (initState "W2") (.msgEvt "r" (some c2CountPayload) "t") =
      { initState "W2" with
          userCount := parseIntOr0 (c2CountPayload.getField "message") } := by
  refine ⟨pong_usercount_never_logged.1 (initState "W2") "r" c2PongPayload "t" rfl,
    ?_, ?_⟩
  · exact (pong_usercount_never_logged.2 (initState "W2") "r" c2CountPayload "t"
      rfl).1
  · exact (pong_usercount_never_logged.2 (initState "W2") "r" c2CountPayload "t"
      rfl).2

/-- Reachable state used to refute C1: after `connect` and the open event the
component is Connected and holds transport 0. -/
def c1ConnectedState : ClientState :=
  run (initState "G1") [.connect, .openEvt 0 "t1"]

/-- C1 counterexample: `initWebSocket` performs no status check, so calling
connect in the Connected state is NOT a no-op — a second transport handle is
allocated and `socket.value` is replaced by it (the Connected state with two
allocated transports also defeats the at-most-one-live-handle invariant the
claim derives). -/
theorem connect_not_noop_when_connected :
    Reachable c1ConnectedState ∧
    c1ConnectedState.status = .connected ∧
    (step c1ConnectedState .connect).transports.length =
      c1ConnectedState.transports.length + 1 ∧
    (step c1ConnectedState .connect).socket ≠ c1ConnectedState.socket ∧
    liveTransports (step c1ConnectedState .connect) = 2 := by
  refine ⟨?_, rfl, rfl, by decide, rfl⟩
  have h1 : Reachable (step (initState "G1") Ev.connect) :=
    Reachable.step (Reachable.init "G1") rfl
  have h2 : Reachable (step (step (initState "G1") Ev.connect) (Ev.openEvt 0 "t1")) :=
    Reachable.step h1 rfl
  exact h2

/-- C1 amended: connect is unguarded — called with status Connected (equally
Connecting) it allocates exactly one fresh transport and stores its handle in
`socket.value`, leaving every other part of the state (status, log, heartbeat,
wire, counters) unchanged; the no-op behaviour exists only in the UI layer,
which renders the Connect control solely when status is Disconnected or
ManuallyClosed. -/
theorem connect_creates_transport_when_connected (s : ClientState)
    (_h : s.status = .connected) :
    (step s .connect).transports.length = s.transports.length + 1 ∧
    (step s .connect).socket = some s.transports.length ∧
    (step s .connect).status = s.status ∧
    (step s .connect).messages = s.messages ∧
    (step s .connect).pingArmed = s.pingArmed ∧
    (step s .connect).wire = s.wire ∧
    (step s .connect).userCount = s.userCount ∧
    (step s .connect).username = s.username ∧
    (step s .connect).pendingReconnects = s.pendingReconnects := by
  refine ⟨?_, rfl, rfl, rfl, rfl, rfl, rfl, rfl, rfl⟩
  simp [step, initWebSocket]

/-- Witness for the amended C1 at the Connected state of the counterexample
trace shape. -/
theorem connect_creates_transport_when_connected_witness :
    (step (run (initState "W1") [.connect, .openEvt 0 "w"]) .connect).transports.length
      = (run (initState "W1") [.connect, .openEvt 0 "w"]).transports.length + 1 ∧
    (step (run (initState "W1") [.connect, .openEvt 0 "w"]) .connect).socket =
      some (run (initState "W1") [.connect, .openEvt 0 "w"]).transports.length ∧
    (step (run (initState "W1") [.connect, .openEvt 0 "w"]) .connect).status =
      (run (initState "W1") [.connect, .openEvt 0 "w"]).status ∧
    (step (run (initState "W1") [.connect, .openEvt 0 "w"]) .connect).messages =
      (run (initState "W1") [.connect, .openEvt 0 "w"]).messages ∧
    (step (run (initState "W1") [.connect, .openEvt 0 "w"]) .connect).pingArmed =
      (run (initState "W1") [.connect, .openEvt 0 "w"]).pingArmed ∧
    (step (run (initState "W1") [.connect, .openEvt 0 "w"]) .connect).wire =
      (run (initState "W1") [.connect, .openEvt 0 "w"]).wire ∧
    (step (run (initState "W1") [.connect, .openEvt 0 "w"]) .connect).userCount =
      (run (initState "W1") [.connect, .openEvt 0 "w"]).userCount ∧
    (step (run (initState "W1") [.connect, .openEvt 0 "w"]) .connect).username =
      (run (initState "W1") [.connect, .openEvt 0 "w"]).username ∧
    (step (run (initState "W1") [.connect, .openEvt 0 "w"]) .connect).pendingReconnects
      = (run (initState "W1") [.connect, .openEvt 0 "w"]).pendingReconnects :=
  connect_creates_transport_when_connected
    (run (initState "W1") [.connect, .openEvt 0 "w"]) rfl

/-- C8 counterexample: rename with a blank name is NOT a no-op — the input
binding has already written the blank name into `username.value`, and
`updateUsername` only skips the JOIN re-announcement, so the local username
ends up changed. -/
theorem rename_blank_still_updates_username :
    (jsTrim "").length = 0 ∧
    (initState "Alice").username = "Alice" ∧
    (step (initState "Alice") (.rename "" "t8")).username = "" := by
  exact ⟨rfl, rfl, rfl⟩

/-- C8 amended: rename(newName) always updates the local username to newName;
when the trimmed new name is nonempty and an open transport is held it
additionally sends exactly one JOIN message carrying the new username, and
otherwise sends nothing; it never reconnects or otherwise changes state (the
transport table, status, handle, timers, log and count are untouched). -/
theorem rename_updates_username_and_rejoins (s : ClientState)
    (n now : String) :
    (step s (.rename n now)).username = n ∧
    (step s (.rename n now)).status = s.status ∧
    (step s (.rename n now)).socket = s.socket ∧
    (step s (.rename n now)).transports = s.transports ∧
    (step s (.rename n now)).messages = s.messages ∧
    (step s (.rename n now)).pingArmed = s.pingArmed ∧
    (step s (.rename n now)).userCount = s.userCount ∧
    (step s (.rename n now)).pendingReconnects = s.pendingReconnects ∧
    (step s (.rename n now)).wire = s.wire ++
      (match s.socket with
       | some id =>
         if 0 < (jsTrim n).length ∧ s.transports[id]? = some .opened then
           [(id, joinMsg n now)]
         else []
       | none => []) := by
  have base : step s (.rename n now) =
      (if 0 < (jsTrim n).length
       then sendJoinMessage now { s with username := n }
       else { s with username := n }) := rfl
  rw [base]
  by_cases ht : 0 < (jsTrim n).length
  · rw [if_pos ht]
    cases hsock : s.socket with
    | none => simp [sendJoinMessage, hsock, ht]
    | some id =>
      by_cases hop : s.transports[id]? = some TState.opened
      · simp [sendJoinMessage, hsock, hop, ht]
      · simp [sendJoinMessage, hsock, hop, ht]
  · rw [if_neg ht]
    cases hsock : s.socket with
    | none => simp [hsock, ht]
    | some id => simp [hsock, ht]

/-- C10 counterexample: the raw payload "null" parses as JSON (to null), is not
an object carrying a recognized kind, yet it is NOT appended as-is: reading
`.type` of null throws inside the try, so the caught error appends the
synthesized System message instead of the parsed value. -/
theorem null_payload_replaced_by_fallback :
    Json.typeTag .null = .error () ∧
    (step (initState "Ga") (.msgEvt "null" (some .null) "ta")).messages =
      [systemFallback "null" "ta"] ∧
    systemFallback "null" "ta" ≠ Json.null := by
  refine ⟨rfl, rfl, ?_⟩
  intro h
  exact Json.noConfusion h

/-- C10 amended: every inbound payload that parses as JSON to a value other
than null, and whose type property is neither the string PONG nor the string
USER_COUNT (non-objects have an undefined type property and fall through the
same way), is appended to the message log exactly as parsed — not discarded,
not replaced by the System fallback, and without any requirement of the
Message shape; no other state changes.  A payload parsing to null instead
yields the System fallback. -/
theorem parsed_unrecognized_appended_as_is (s : ClientState)
    (raw now : String) (j : Json) (t : Option String)
    (ht : j.typeTag = .ok t) (hp : t ≠ some "PONG")
    (hu : t ≠ some "USER_COUNT") :
    step s (.msgEvt raw (some j) now) =
      { s with messages := s.messages ++ [j] } := by
  simp [step, websocketOnMessage, ht, hp, hu]

/-- Witness for the amended C10 at the JSON number 5. -/
theorem parsed_unrecognized_appended_as_is_witness :
    step (initState "Wa") (.msgEvt "5" (some (.num 5)) "tb") =
      { initState "Wa" with messages := [Json.num 5] } :=
  parsed_unrecognized_appended_as_is (initState "Wa") "5" "tb" (.num 5) none
    rfl (by decide) (by decide)

/-- Every handler preserves the direction "heartbeat armed implies status
Connected" of the heartbeat invariant. -/
theorem step_preserves_heartbeat_guard (s : ClientState) (e : Ev)
    (h : s.pingArmed = true → s.status = .connected) :
    (step s e).pingArmed = true → (step s e).status = .connected := by
  cases e with
  | connect => exact h
  | disconnect =>
    cases hsock : s.socket with
    | none => simpa [step, closeConnection, hsock] using h
    | some id => simp [step, closeConnection, hsock]
  | rename n now =>
    intro ha
    by_cases ht : 0 < (jsTrim n).length
    · have hb : step s (.rename n now) =
          sendJoinMessage now { s with username := n } := by
        simp [step, rename, updateUsername, ht]
      rw [hb] at ha ⊢
      have hf := sendJoinMessage_fields now { s with username := n }
      rw [hf.2.1]
      rw [hf.1] at ha
      exact h ha
    · have hb : step s (.rename n now) = { s with username := n } := by
        simp [step, rename, updateUsername, ht]
      rw [hb] at ha ⊢
      exact h ha
  | openEvt id now =>
    intro _
    have hf := sendJoinMessage_fields now
      { s with transports := s.transports.set id .opened
               status := .connected, pingArmed := true }
    exact hf.2.1
  | closeEvt id =>
    intro ha
    exfalso
    revert ha
    simp only [step, websocketClose, clearPingInterval]
    split <;> simp
  | msgEvt raw p now =>
    intro ha
    have hf := websocketOnMessage_fields raw p now s
    have ha2 : (websocketOnMessage raw p now s).pingArmed = true := ha
    show (websocketOnMessage raw p now s).status = Status.connected
    rw [hf.2.1]
    rw [hf.1] at ha2
    exact h ha2
  | errorEvt => exact h
  | pingFire now =>
    cases hsock : s.socket with
    | none => simp [step, pingIntervalTick, hsock, clearPingInterval]
    | some id =>
      by_cases hst : s.status = .connected
      · intro _
        simp only [step, pingIntervalTick, hsock, hst, if_true]
        split
        · rfl
        · exact hst
      · simp [step, pingIntervalTick, hsock, hst, clearPingInterval]
  | reconnectFire =>
    by_cases hst : s.status = .disconnected
    · have hb : step s .reconnectFire =
          initWebSocket { s with pendingReconnects := s.pendingReconnects - 1 } := by
        simp [step, reconnectTimerFire, hst]
      rw [hb]
      exact h
    · have hb : step s .reconnectFire =
          { s with pendingReconnects := s.pendingReconnects - 1 } := by
        simp [step, reconnectTimerFire, hst]
      rw [hb]
      exact h

/-- C3 amended: in every reachable state, if the heartbeat timer is armed then
the status is Connected.  The converse direction of the claimed iff is refuted
below: a stale transport's open event can leave the component Connected while a
subsequent heartbeat fire with no held socket cancels the timer. -/
theorem heartbeat_armed_implies_connected (s : ClientState)
    (hr : Reachable s) : s.pingArmed = true → s.status = .connected := by
  induction hr with
  | init u => intro ha; exact absurd ha (by simp [initState])
  | step hr hen ih => exact step_preserves_heartbeat_guard _ _ ih

/-- Witness for the amended C3 at a reachable Connected state with the
heartbeat armed. -/
theorem heartbeat_armed_implies_connected_witness :
    (run (initState "W3") [Ev.connect, Ev.openEvt 0 "w3"]).status =
      Status.connected := by
  have hr : Reachable (step (step (initState "W3") Ev.connect)
      (Ev.openEvt 0 "w3")) :=
    Reachable.step (Reachable.step (Reachable.init "W3") rfl) rfl
  exact heartbeat_armed_implies_connected _ hr rfl

/-- Trace refuting C3: two overlapping connects, the second opens and is
manually disconnected, then the stale first transport's open event arrives (it
re-arms the heartbeat and sets status Connected with `socket.value` null), and
the next heartbeat tick self-cancels the timer while status stays Connected. -/
def c3BadTrace : List Ev :=
  [.connect, .connect, .openEvt 1 "a3", .disconnect, .openEvt 0 "b3",
   .pingFire "c3"]

/-- C3 counterexample: a reachable state (reached only through enabled
transitions, the last one a heartbeat-timer fire) in which status is Connected
but the heartbeat timer is NOT armed, refuting the claimed iff invariant. -/
theorem heartbeat_iff_connected_fails :
    Reachable (run (initState "G3") c3BadTrace) ∧
    (run (initState "G3") c3BadTrace).status = .connected ∧
    (run (initState "G3") c3BadTrace).pingArmed = false := by
  refine ⟨?_, rfl, rfl⟩
  show Reachable (step (step (step (step (step (step (initState "G3")
    Ev.connect) Ev.connect) (Ev.openEvt 1 "a3")) Ev.disconnect)
    (Ev.openEvt 0 "b3")) (Ev.pingFire "c3"))
  exact Reachable.step (Reachable.step (Reachable.step (Reachable.step
    (Reachable.step (Reachable.step (Reachable.init "G3") rfl) rfl) rfl) rfl)
    rfl) rfl

/-- While the status is ManuallyClosed, any single event other than a connect
command and a transport-open event keeps the status ManuallyClosed, creates no
transport, and never arms a reconnect timer. -/
theorem step_keeps_manual_closure (s : ClientState) (e : Ev)
    (hs : s.status = .manuallyClosed)
    (hc : e.isConnect = false) (ho : e.isOpenEvt = false) :
    (step s e).status = .manuallyClosed ∧
    (step s e).transports.length = s.transports.length ∧
    (step s e).pendingReconnects ≤ s.pendingReconnects := by
  cases e with
  | connect => simp [Ev.isConnect] at hc
  | openEvt id now => simp [Ev.isOpenEvt] at ho
  | disconnect =>
    cases hsock : s.socket with
    | none => simp [step, closeConnection, hsock, hs]
    | some id => simp [step, closeConnection, hsock, hs]
  | rename n now =>
    by_cases ht : 0 < (jsTrim n).length
    · have hb : step s (.rename n now) =
          sendJoinMessage now { s with username := n } := by
        simp [step, rename, updateUsername, ht]
      rw [hb]
      have hf := sendJoinMessage_fields now { s with username := n }
      exact ⟨hf.2.1.trans hs, congrArg List.length hf.2.2.2.1,
        le_of_eq hf.2.2.2.2.2.2.2⟩
    · have hb : step s (.rename n now) = { s with username := n } := by
        simp [step, rename, updateUsername, ht]
      rw [hb]
      exact ⟨hs, rfl, le_refl _⟩
  | closeEvt id =>
    have hb : step s (.closeEvt id) =
        { s with transports := s.transports.set id .closed
                 pingArmed := false
                 status := .manuallyClosed } := by
      simp [step, websocketClose, clearPingInterval, hs]
    rw [hb]
    exact ⟨rfl, by simp, le_refl _⟩
  | msgEvt raw p now =>
    have hf := websocketOnMessage_fields raw p now s
    exact ⟨hf.2.1.trans hs, congrArg List.length hf.2.2.2.1,
      le_of_eq hf.2.2.2.2.1⟩
  | errorEvt => exact ⟨hs, rfl, le_refl _⟩
  | pingFire now =>
    have hst : ¬ s.status = .connected := by simp [hs]
    cases hsock : s.socket with
    | none => simp [step, pingIntervalTick, hsock, clearPingInterval, hs]
    | some id => simp [step, pingIntervalTick, hsock, hst, clearPingInterval, hs]
  | reconnectFire =>
    have hst : ¬ s.status = .disconnected := by simp [hs]
    have hb : step s .reconnectFire =
        { s with pendingReconnects := s.pendingReconnects - 1 } := by
      simp [step, reconnectTimerFire, hst]
    rw [hb]
    exact ⟨hs, rfl, Nat.sub_le _ _⟩

/-- C4 amended: once disconnect has set the status to ManuallyClosed, then as
long as no connect command and no (stale-)transport-open event occurs, every
subsequent sequence of events — transport closes at any timing, timer fires,
inbound frames, renames, further disconnects — keeps the status ManuallyClosed,
creates no transport (so no reconnect attempt ever happens), and never arms a
reconnect timer.  The stale-open exclusion is necessary: the counterexample
shows a superseded transport's open event un-does the manual closure, after
which the close event does arm the reconnect timer. -/
theorem manual_close_never_reconnects (s : ClientState) (evs : List Ev)
    (hs : s.status = .manuallyClosed)
    (hevs : evs.all (fun e => !e.isConnect && !e.isOpenEvt) = true) :
    (run s evs).status = .manuallyClosed ∧
    (run s evs).transports.length = s.transports.length ∧
    (run s evs).pendingReconnects ≤ s.pendingReconnects := by
  induction evs generalizing s with
  | nil => exact ⟨hs, rfl, le_refl _⟩
  | cons e rest ih =>
    simp only [List.all_cons, Bool.and_eq_true, Bool.not_eq_true'] at hevs
    obtain ⟨⟨hc, ho⟩, hrest⟩ := hevs
    have hstep := step_keeps_manual_closure s e hs hc ho
    have hrec := ih (step s e) hstep.1 hrest
    exact ⟨hrec.1, hrec.2.1.trans hstep.2.1, le_trans hrec.2.2 hstep.2.2⟩

/-- Witness for the amended C4: after connect, open, disconnect, the held
transport's close event plus a reconnect-timer fire plus an inbound frame leave
the component ManuallyClosed with no new transport and no armed reconnect. -/
theorem manual_close_never_reconnects_witness :
    (run (run (initState "W4") [Ev.connect, Ev.openEvt 0 "w4", Ev.disconnect])
        [Ev.closeEvt 0, Ev.reconnectFire, Ev.msgEvt "m4" none "w5"]).status =
      .manuallyClosed ∧
    (run (run (initState "W4") [Ev.connect, Ev.openEvt 0 "w4", Ev.disconnect])
        [Ev.closeEvt 0, Ev.reconnectFire, Ev.msgEvt "m4" none "w5"]).transports.length
      = (run (initState "W4")
          [Ev.connect, Ev.openEvt 0 "w4", Ev.disconnect]).transports.length ∧
    (run (run (initState "W4") [Ev.connect, Ev.openEvt 0 "w4", Ev.disconnect])
        [Ev.closeEvt 0, Ev.reconnectFire, Ev.msgEvt "m4" none "w5"]).pendingReconnects
      ≤ (run (initState "W4")
          [Ev.connect, Ev.openEvt 0 "w4", Ev.disconnect]).pendingReconnects :=
  manual_close_never_reconnects
    (run (initState "W4") [Ev.connect, Ev.openEvt 0 "w4", Ev.disconnect])
    [Ev.closeEvt 0, Ev.reconnectFire, Ev.msgEvt "m4" none "w5"] rfl rfl

/-- Trace refuting C4: two overlapping connects; the opened second transport is
manually disconnected (status ManuallyClosed), then the stale first transport
opens, and then the close event of the manually closed transport arrives. -/
def c4BadTrace : List Ev :=
  [.connect, .connect, .openEvt 1 "a4", .disconnect, .openEvt 0 "b4",
   .closeEvt 1]

/-- C4 counterexample: along a reachable trace, disconnect sets the status to
ManuallyClosed, yet the subsequent close event of the very transport that
disconnect closed arms a reconnect timer (because a stale open meanwhile reset
the status), and firing that timer performs a reconnect attempt, creating a new
transport. -/
theorem close_after_disconnect_arms_reconnect :
    Reachable (run (initState "G4") c4BadTrace) ∧
    (run (initState "G4")
      [.connect, .connect, .openEvt 1 "a4", .disconnect]).status =
        .manuallyClosed ∧
    (run (initState "G4") c4BadTrace).pendingReconnects = 1 ∧
    (step (run (initState "G4") c4BadTrace) .reconnectFire).transports.length =
      (run (initState "G4") c4BadTrace).transports.length + 1 := by
  refine ⟨?_, rfl, rfl, rfl⟩
  show Reachable (step (step (step (step (step (step (initState "G4")
    Ev.connect) Ev.connect) (Ev.openEvt 1 "a4")) Ev.disconnect)
    (Ev.openEvt 0 "b4")) (Ev.closeEvt 1))
  exact Reachable.step (Reachable.step (Reachable.step (Reachable.step
    (Reachable.step (Reachable.step (Reachable.init "G4") rfl) rfl) rfl) rfl)
    rfl) rfl

/-- C5 amended: a transport-close event arriving while the status is not
ManuallyClosed sets the status to Disconnected, stops the heartbeat, and arms
exactly one one-shot reconnect timer; firing a reconnect timer consumes it and
calls connect if and only if the status is still Disconnected at that moment.
A manual disconnect or a connect whose open handshake has completed therefore
suppresses the attempt, but a connect still mid-handshake leaves the status
Disconnected and does NOT suppress it, so the fired timer then creates a second
concurrent transport (refuting the claim's final clause, see the
counterexample). -/
theorem unexpected_close_arms_one_reconnect :
    (∀ (s : ClientState) (id : Nat), s.status ≠ .manuallyClosed →
      step s (.closeEvt id) =
        { s with transports := s.transports.set id .closed
                 pingArmed := false
                 status := .disconnected
                 pendingReconnects := s.pendingReconnects + 1 }) ∧
    (∀ s : ClientState, s.status = .disconnected →
      step s .reconnectFire =
        initWebSocket { s with pendingReconnects := s.pendingReconnects - 1 }) ∧
    (∀ s : ClientState, s.status ≠ .disconnected →
      step s .reconnectFire =
        { s with pendingReconnects := s.pendingReconnects - 1 }) := by
  refine ⟨?_, ?_, ?_⟩
  · intro s id h
    simp [step, websocketClose, clearPingInterval, h]
  · intro s h
    simp [step, reconnectTimerFire, h]
  · intro s h
    simp [step, reconnectTimerFire, h]

/-- Witness for the amended C5: a close of the opened transport of a Connected
component arms one reconnect; firing a reconnect while Disconnected creates a
transport; firing one while Connected only consumes the timer. -/
theorem unexpected_close_arms_one_reconnect_witness :
    (step (run (initState "W5") [Ev.connect, Ev.openEvt 0 "w6"]) (Ev.closeEvt 0)
      = { run (initState "W5") [Ev.connect, Ev.openEvt 0 "w6"] with
            transports :=
              (run (initState "W5")
                [Ev.connect, Ev.openEvt 0 "w6"]).transports.set 0 TState.closed
            pingArmed := false
            status := .disconnected
            pendingReconnects :=
              (run (initState "W5")
                [Ev.connect, Ev.openEvt 0 "w6"]).pendingReconnects + 1 }) ∧
    (step (run (initState "W5") [Ev.connect]) Ev.reconnectFire =
      initWebSocket
        { run (initState "W5") [Ev.connect] with
            pendingReconnects :=
              (run (initState "W5") [Ev.connect]).pendingReconnects - 1 }) ∧
    (step (run (initState "W5") [Ev.connect, Ev.openEvt 0 "w6"]) Ev.reconnectFire
      = { run (initState "W5") [Ev.connect, Ev.openEvt 0 "w6"] with
            pendingReconnects :=
              (run (initState "W5")
                [Ev.connect, Ev.openEvt 0 "w6"]).pendingReconnects - 1 }) :=
  ⟨unexpected_close_arms_one_reconnect.1
      (run (initState "W5") [Ev.connect, Ev.openEvt 0 "w6"]) 0 (by decide),
   unexpected_close_arms_one_reconnect.2.1
      (run (initState "W5") [Ev.connect]) rfl,
   unexpected_close_arms_one_reconnect.2.2
      (run (initState "W5") [Ev.connect, Ev.openEvt 0 "w6"]) (by decide)⟩

/-- Trace refuting C5's suppression clause: an unexpected close arms the
reconnect timer; the user reconnects before the delay elapses; the timer fires
while the fresh connect is still mid-handshake (status still Disconnected). -/
def c5BadTrace : List Ev :=
  [.connect, .openEvt 0 "a5", .closeEvt 0, .connect, .reconnectFire]

/-- C5 counterexample: a connect issued before the reconnect delay elapses does
NOT suppress the scheduled attempt — at the timer's firing the status is still
Disconnected (connect does not change it), so a further transport is created
and two live transports exist concurrently. -/
theorem reconnect_fire_creates_second_transport :
    Reachable (run (initState "G5") c5BadTrace) ∧
    (run (initState "G5")
      [.connect, .openEvt 0 "a5", .closeEvt 0, .connect]).status =
        .disconnected ∧
    liveTransports (run (initState "G5") c5BadTrace) = 2 := by
  refine ⟨?_, rfl, rfl⟩
  show Reachable (step (step (step (step (step (initState "G5")
    Ev.connect) (Ev.openEvt 0 "a5")) (Ev.closeEvt 0)) Ev.connect)
    Ev.reconnectFire)
  exact Reachable.step (Reachable.step (Reachable.step (Reachable.step
    (Reachable.step (Reachable.init "G5") rfl) rfl) rfl) rfl) rfl

end WsVue
